import Mathlib

/-!
Verification of the answer-engine-analytics repository: the response-analysis
pipeline, the metrics aggregation layer, and the frontend API client and
display helpers.  Frontend definitions are shallow embeddings of the
TypeScript under `src/frontend`; the backend Python analysis code is not part
of the source tree, so those components are modelled from the specification
(each such definition says so in its doc comment).
-/

namespace AnswerEngine

/-! ### Sentiment labels (spec 4.3; frontend `analysis/page.tsx` line 563) -/

/-- The three sentiment labels used throughout the system. -/
inductive SentimentLabel where
  | positive
  | negative
  | neutral
deriving DecidableEq, Repr

/-- Modelled from the spec: the backend Sentiment Scorer
(`backend/src/nlp/sentiment.py`) is not in the source tree.  Spec 4.3:
score > 0.2 labels "positive", score < -0.2 labels "negative", otherwise
"neutral". -/
def sentimentLabel (s : ℚ) : SentimentLabel :=
  if s > 1/5 then .positive
  else if s < -(1/5) then .negative
  else .neutral

/-- Embedding of the frontend aspect-label re-derivation
(`src/frontend/src/app/(dashboard)/analysis/page.tsx` line 563):
`avgScore > 0.2 ? "positive" : avgScore < -0.2 ? "negative" : "neutral"`. -/
def aspectLabelString (avgScore : ℚ) : String :=
  if avgScore > 1/5 then "positive"
  else if avgScore < -(1/5) then "negative"
  else "neutral"

/-- The string the frontend renders for each sentiment label. -/
def SentimentLabel.toString : SentimentLabel → String
  | .positive => "positive"
  | .negative => "negative"
  | .neutral => "neutral"

/-! ### Score colors (frontend `utils.ts` and `VisibilityGauge.tsx`) -/

/-- Embedding of `getScoreColor` (`src/frontend/src/lib/utils.ts` lines
33-37). -/
def getScoreColor (score : ℚ) : String :=
  if score ≥ 70 then "text-green-600"
  else if score ≥ 40 then "text-yellow-600"
  else "text-red-600"

/-- Embedding of the local `getStrokeColor`
(`src/frontend/src/components/charts/VisibilityGauge.tsx` lines 21-25). -/
def getStrokeColor (score : ℚ) : String :=
  if score ≥ 70 then "#22c55e"
  else if score ≥ 40 then "#f59e0b"
  else "#ef4444"

/-- The three color bands of the score display. -/
inductive ScoreBand where
  | green
  | yellow
  | red
deriving DecidableEq, Repr

/-- Band denoted by a `getScoreColor` text class. -/
def textBand (c : String) : Option ScoreBand :=
  if c = "text-green-600" then some .green
  else if c = "text-yellow-600" then some .yellow
  else if c = "text-red-600" then some .red
  else none

/-- Band denoted by a `getStrokeColor` hex color. -/
def strokeBand (c : String) : Option ScoreBand :=
  if c = "#22c55e" then some .green
  else if c = "#f59e0b" then some .yellow
  else if c = "#ef4444" then some .red
  else none

/-! ### API client URL construction (frontend `api.ts`) -/

/-- JavaScript `Array.prototype.join` over strings: the elements
concatenated with the separator between consecutive elements. -/
def joinSep (sep : String) : List String → String
  | [] => ""
  | [a] => a
  | a :: b :: rest => a ++ sep ++ joinSep sep (b :: rest)

/-- The query string built by `analysisApi.triggerAnalysis`
(`src/frontend/src/lib/api.ts` lines 162-171): the platform list mapped to
`platforms=p` fragments and joined with `&`, prefixed with `?`, when the
platform list is provided; the empty string when it is omitted. -/
def triggerQueryString : Option (List String) → String
  | some ps => "?" ++ joinSep "&" (ps.map (fun p => "platforms=" ++ p))
  | none => ""

/-- The full URL `analysisApi.triggerAnalysis` posts to
(`src/frontend/src/lib/api.ts` lines 162-171). -/
def triggerAnalysisUrl (brandId : String) (platforms : Option (List String)) : String :=
  "/api/analysis/brand/" ++ brandId ++ "/run" ++ triggerQueryString platforms

/-- One `platforms=` query parameter per platform, in list order, joined
with `&`: the shape the claim describes. -/
def repeatedPlatformsQuery : List String → String
  | [] => ""
  | [p] => "platforms=" ++ p
  | p :: q :: ps => "platforms=" ++ p ++ "&" ++ repeatedPlatformsQuery (q :: ps)

/-! ### Entity/Mention Locator (spec 4.2) -/

/-- Characters that belong to a word, for word-boundary checks. -/
def isWordChar (c : Char) : Bool := c.isAlphanum

/-- Case-insensitive prefix match: when `pat` is a prefix of `s` (comparing
lower-cased characters), the remainder of `s` after the match. -/
def stripPrefixCI : List Char → List Char → Option (List Char)
  | [], s => some s
  | _ :: _, [] => none
  | p :: ps, c :: cs => if p.toLower = c.toLower then stripPrefixCI ps cs else none

/-- A word boundary holds after a match when the remaining text is empty or
starts with a non-word character. -/
def boundaryAfter : List Char → Bool
  | [] => true
  | c :: _ => !(isWordChar c)

/-- Modelled from the spec: the backend Entity/Mention Locator
(`backend/src/nlp/entity_extraction.py`) is not in the source tree.
Spec 4.2: case-insensitive substring search with word-boundary checks,
counting every non-overlapping occurrence.  `prevWord` records whether the
character just before the current scan position is a word character; a match
counts only when it starts and ends at word boundaries, and the scan resumes
after a counted match (non-overlapping). -/
def countAux (pat : List Char) : ℕ → List Char → Bool → ℕ
  | 0, _, _ => 0
  | _ + 1, [], _ => 0
  | fuel + 1, c :: cs, prevWord =>
    match stripPrefixCI pat (c :: cs) with
    | some rest =>
      if !pat.isEmpty && !prevWord && boundaryAfter rest then
        1 + countAux pat fuel rest true
      else
        countAux pat fuel cs (isWordChar c)
    | none => countAux pat fuel cs (isWordChar c)

/-- Number of word-boundary-delimited, case-insensitive, non-overlapping
occurrences of `name` in `text`. -/
def countMentions (name text : String) : ℕ :=
  countAux name.data text.data.length text.data false

/-- Decimal digits read off a character list, most significant first. -/
def digitsToNat : List Char → ℕ → ℕ
  | [], acc => acc
  | c :: cs, acc => digitsToNat cs (acc * 10 + (c.toNat - 48))

/-- Modelled from the spec: list-marker detection of spec 4.2 (numeric
markers such as "2." at the start of a line).  Returns the rank when the
line opens with digits followed by a dot. -/
def parseLeadingRank (line : String) : Option ℕ :=
  let ds := line.data.takeWhile Char.isDigit
  match line.data.dropWhile Char.isDigit with
  | '.' :: _ => if ds.isEmpty then none else some (digitsToNat ds 0)
  | _ => none

/-- Smallest element of a list of ranks, `none` when empty. -/
def minRank : List ℕ → Option ℕ
  | [] => none
  | r :: rs =>
    match minRank rs with
    | none => some r
    | some m => some (min r m)

/-- Modelled from the spec: position detection of spec 4.2.  A line yields a
rank when it carries a numeric list marker and contains a brand mention; the
lowest (best) rank wins; `none` when no marked line mentions the brand. -/
def detectPosition (brand : String) (ls : List String) : Option ℕ :=
  minRank ((ls.filter (fun l => 0 < countMentions brand l)).filterMap parseLeadingRank)

/-! ### Brand configuration and the analysis record (spec section 3) -/

/-- Brand inputs the pipeline needs (spec section 3): name and competitor
names (aliases and products are not exercised by the claims). -/
structure BrandConfig where
  name : String
  competitors : List String
deriving DecidableEq, Repr

/-- Outcome of one comparison mention (spec 4.4). -/
inductive ComparisonOutcome where
  | win
  | loss
  | draw
deriving DecidableEq, Repr

/-- `comparison_stats` of an AnalysisRecord (spec section 3). -/
structure ComparisonStats where
  total : ℕ
  wins : ℕ
  losses : ℕ
  draws : ℕ
deriving DecidableEq, Repr

/-- The all-zero comparison statistics. -/
def emptyStats : ComparisonStats := ⟨0, 0, 0, 0⟩

/-- Fold one comparison outcome into the running statistics (spec 4.4:
accumulate wins/losses/draws and the total). -/
def accumStats (s : ComparisonStats) : ComparisonOutcome → ComparisonStats
  | .win => { s with total := s.total + 1, wins := s.wins + 1 }
  | .loss => { s with total := s.total + 1, losses := s.losses + 1 }
  | .draw => { s with total := s.total + 1, draws := s.draws + 1 }

/-- Comparison statistics of a list of outcomes. -/
def statsOf (os : List ComparisonOutcome) : ComparisonStats :=
  os.foldl accumStats emptyStats

/-- AnalysisRecord (spec section 3), restricted to the fields the verified
claims mention. -/
structure AnalysisRecord where
  platform : String
  brand_mentioned : Bool
  mention_count : ℕ
  position : Option ℕ
  sentiment_score : ℚ
  sentiment_label : SentimentLabel
  competitor_mentions : List (String × ℕ)
  comparison_stats : ComparisonStats
deriving DecidableEq, Repr

/-! ### Sentiment Scorer (spec 4.3) and the per-response analysis -/

/-- Modelled from the spec: positive polarity indicator terms of spec 4.3
(praise and recommendation verbs; the exact lexicon is tuning configuration,
spec section 9). -/
def posTerms : List String := ["great", "best", "excellent", "recommend", "good"]

/-- Modelled from the spec: negative polarity indicator terms of spec 4.3. -/
def negTerms : List String := ["bad", "avoid", "poor", "expensive", "lacking"]

/-- Occurrences of any of the given indicator terms in the text. -/
def termHits (terms : List String) (text : String) : ℕ :=
  (terms.map (fun t => countMentions t text)).sum

/-- Modelled from the spec: lexical polarity of spec 4.3 — positive and
negative indicator counts combined into a score in [-1, 1]. -/
def rawPolarity (text : String) : ℚ :=
  let p := termHits posTerms text
  let n := termHits negTerms text
  if p + n = 0 then 0 else ((p : ℚ) - n) / ((p : ℚ) + n)

/-- Modelled from the spec: the response-level sentiment score of spec 4.3 —
0.0 when there are zero brand mentions, the polarity of the mention context
otherwise. -/
def sentimentScoreOf (mentionCount : ℕ) (text : String) : ℚ :=
  if mentionCount = 0 then 0 else rawPolarity text

/-- Modelled from the spec: brand-favorable directional cues of spec 4.4. -/
def favCues : List String := ["better", "superior", "wins", "stronger"]

/-- Modelled from the spec: competitor-favorable directional cues of
spec 4.4. -/
def againstCues : List String := ["worse", "weaker", "loses", "inferior"]

/-- Modelled from the spec: outcome of one comparison sentence (spec 4.4) —
a brand-favorable cue gives a win, a competitor-favorable cue a loss, and no
directional cue a draw. -/
def classifyOutcome (line : String) : ComparisonOutcome :=
  if 0 < termHits favCues line then .win
  else if 0 < termHits againstCues line then .loss
  else .draw

/-- Modelled from the spec: the comparison mentions of spec 4.3/4.4 — lines
in which the brand and at least one competitor are both mentioned, each
classified by its directional cues. -/
def comparisonOutcomes (cfg : BrandConfig) (ls : List String) : List ComparisonOutcome :=
  (ls.filter (fun l =>
    0 < countMentions cfg.name l &&
    cfg.competitors.any (fun c => 0 < countMentions c l))).map classifyOutcome

/-- Splits text at newline characters (the accumulator holds the current
line's characters in reverse). -/
def splitLinesAux : List Char → List Char → List String
  | [], acc => [String.mk acc.reverse]
  | c :: cs, acc =>
    if c = '\n' then String.mk acc.reverse :: splitLinesAux cs []
    else splitLinesAux cs (c :: acc)

/-- The lines of a response text. -/
def splitLines (text : String) : List String := splitLinesAux text.data []

/-- Modelled from the spec: the Analysis Orchestrator's assembly of one
AnalysisRecord from one completed response (spec 4.6, data model of
spec section 3).  The backend `backend/src/services/analysis_runner.py` is
not in the source tree.  Mention counting is per line (names do not span
lines) and summed; competitors are counted independently (spec 4.2). -/
def analyzeResponse (cfg : BrandConfig) (platform text : String) : AnalysisRecord :=
  let ls := splitLines text
  let mc := (ls.map (countMentions cfg.name)).sum
  let score := sentimentScoreOf mc text
  { platform := platform
    brand_mentioned := decide (0 < mc)
    mention_count := mc
    position := detectPosition cfg.name ls
    sentiment_score := score
    sentiment_label := sentimentLabel score
    competitor_mentions := cfg.competitors.map (fun c => (c, (ls.map (countMentions c)).sum))
    comparison_stats := statsOf (comparisonOutcomes cfg ls) }

/-! ### Analysis Orchestrator (spec 4.6) -/

/-- Completion status of a RawResponse (spec section 3). -/
inductive CompletionStatus where
  | completed
  | failed
  | timeout
deriving DecidableEq, Repr

/-- RawResponse, the input boundary object (spec section 3), restricted to
the fields the orchestrator's control flow reads. -/
structure RawResponse where
  platform : String
  response_text : String
  status : CompletionStatus
deriving DecidableEq, Repr

/-- Modelled from the spec: the failed-placeholder AnalysisRecord of
spec 4.6 — brand_mentioned false, all counts zero. -/
def failedPlaceholder (platform : String) : AnalysisRecord :=
  { platform := platform
    brand_mentioned := false
    mention_count := 0
    position := none
    sentiment_score := 0
    sentiment_label := .neutral
    competitor_mentions := []
    comparison_stats := emptyStats }

/-- Modelled from the spec: the Analysis Orchestrator per RawResponse
(spec 4.6 and the error taxonomy of spec section 7): a failed or timed-out
response, or an empty response text, skips the analysis passes and records
the failed placeholder; a completed response is analyzed.  Total function:
it never throws, and returns exactly one AnalysisRecord. -/
def orchestrate (cfg : BrandConfig) (r : RawResponse) : AnalysisRecord :=
  if r.status ≠ .completed ∨ r.response_text = "" then
    failedPlaceholder r.platform
  else
    analyzeResponse cfg r.platform r.response_text

/-- One AnalysisRecord per RawResponse: the orchestrator applied to a batch
of responses. -/
def orchestrateAll (cfg : BrandConfig) (rs : List RawResponse) : List AnalysisRecord :=
  rs.map (orchestrate cfg)

/-! ### Metrics Aggregator (spec 4.7) -/

/-- Visibility weight of the mention rate (spec 4.7: fixed configuration
constant; project reference doc "Key Metrics Calculated": 40). -/
def W1 : ℚ := 40

/-- Visibility weight of the position score (project reference doc: 30). -/
def W2 : ℚ := 30

/-- Visibility weight of the sentiment component (project reference doc:
30). -/
def W3 : ℚ := 30

/-- Modelled from the spec: `mention_rate = mentions / total_queries_in_window`
(spec 4.7), in [0, 1]; 0 when the window holds no queries. -/
def mentionRate (mentions totalQueries : ℕ) : ℚ :=
  if totalQueries = 0 then 0 else (mentions : ℚ) / (totalQueries : ℚ)

/-- Modelled from the spec: the position score of spec 4.7 — rewards lower
(better) 1-based ranks (rank r contributes 1/r) and zeroes out when the
position is absent. -/
def positionScore : Option ℕ → ℚ
  | none => 0
  | some r => 1 / (r : ℚ)

/-- Modelled from the spec: the sentiment component of spec 4.7 — maps a
sentiment in [-1, 1] affinely onto [0, 1], so that multiplied by its weight
it contributes on a [0, 100]-compatible scale. -/
def sentimentComponent (s : ℚ) : ℚ := (s + 1) / 2

/-- Modelled from the spec: the visibility score of spec 4.7 —
`mention_rate * W1 + position_score * W2 + sentiment_component * W3`.  The
backend Metrics Aggregator is not in the source tree. -/
def visibilityScore (mentions totalQueries : ℕ) (pos : Option ℕ) (sent : ℚ) : ℚ :=
  mentionRate mentions totalQueries * W1 + positionScore pos * W2 + sentimentComponent sent * W3

/-- Modelled from the spec: share of voice (spec 4.7) —
`brand_mention_total / (brand_mention_total + sum(competitor_mention_totals)) * 100`,
defined as 0 when the denominator is 0. -/
def shareOfVoice (brandTotal compTotal : ℕ) : ℚ :=
  if brandTotal + compTotal = 0 then 0
  else (brandTotal : ℚ) / ((brandTotal : ℚ) + (compTotal : ℚ)) * 100

/-- DailyMetrics (spec section 3), the aggregation output for one brand and
one calendar day. -/
structure DailyMetrics where
  visibility_score : ℚ
  sentiment_avg : ℚ
  mention_count : ℕ
  share_of_voice : ℚ
  platform_breakdown : List (String × ℚ)
deriving DecidableEq, Repr

/-- Competitor mention total carried by one record. -/
def recordCompTotal (r : AnalysisRecord) : ℕ :=
  (r.competitor_mentions.map Prod.snd).sum

/-- Mean sentiment score of a record set, 0 when empty. -/
def sentimentAvg (rs : List AnalysisRecord) : ℚ :=
  if rs.isEmpty then 0 else (rs.map (fun r => r.sentiment_score)).sum / (rs.length : ℚ)

/-- Mean position score of a record set (absent positions contribute 0),
0 when empty. -/
def avgPositionScore (rs : List AnalysisRecord) : ℚ :=
  if rs.isEmpty then 0 else (rs.map (fun r => positionScore r.position)).sum / (rs.length : ℚ)

/-- Visibility of a record set: the spec 4.7 formula over the set's mention
rate (responses mentioning the brand over responses in the window), mean
position score and mean sentiment. -/
def setVisibility (rs : List AnalysisRecord) : ℚ :=
  mentionRate (rs.filter (fun r => r.brand_mentioned)).length rs.length * W1 +
    avgPositionScore rs * W2 + sentimentComponent (sentimentAvg rs) * W3

/-- Modelled from the spec: the Metrics Aggregator's fold of one day's
AnalysisRecords into DailyMetrics (spec 4.7): visibility from mention rate,
position and sentiment; share of voice from brand and competitor mention
totals; the per-platform breakdown recomputes the same visibility formula
restricted to each platform's records.  A pure function of the record
set. -/
def dailyMetricsOf (rs : List AnalysisRecord) : DailyMetrics :=
  let platforms := (rs.map (fun r => r.platform)).dedup
  { visibility_score := setVisibility rs
    sentiment_avg := sentimentAvg rs
    mention_count := (rs.map (fun r => r.mention_count)).sum
    share_of_voice :=
      shareOfVoice ((rs.map (fun r => r.mention_count)).sum) ((rs.map recordCompTotal).sum)
    platform_breakdown :=
      platforms.map (fun p => (p, setVisibility (rs.filter (fun r => r.platform = p)))) }

/-- The persisted DailyMetrics table: rows keyed by (brand id, day number).
Days are integers (day offsets of the calendar date). -/
def MetricsStore := List ((String × ℤ) × DailyMetrics)

/-- Replace the row under `k`, or append it when absent (the upsert of
spec section 3: DailyMetrics rows are recomputed/upserted per (brand, day)). -/
def upsertRow (store : MetricsStore) (k : String × ℤ) (v : DailyMetrics) : MetricsStore :=
  match store with
  | [] => [(k, v)]
  | (k0, v0) :: rest =>
    if k0 = k then (k, v) :: rest else (k0, v0) :: upsertRow rest k v

/-- Modelled from the spec: one run of the Metrics Aggregator for a (brand,
day) pair (spec 4.7 and the lifecycle of spec section 3): it recomputes the
DailyMetrics row from the day's AnalysisRecord set — never incrementally
patches the stored row — and upserts the result. -/
def runAggregator (store : MetricsStore) (brand : String) (day : ℤ)
    (rs : List AnalysisRecord) : MetricsStore :=
  upsertRow store (brand, day) (dailyMetricsOf rs)

/-- Row stored under a key, if any. -/
def lookupRow (store : MetricsStore) (k : String × ℤ) : Option DailyMetrics :=
  match store with
  | [] => none
  | (k0, v0) :: rest => if k0 = k then some v0 else lookupRow rest k

/-! ### Trend query (spec section 6) -/

/-- The metric names the trend endpoint accepts. -/
inductive TrendMetric where
  | visibility
  | sentiment
  | mentions
deriving DecidableEq, Repr

/-- The `n` trailing day numbers ending at `today`, in ascending date
order. -/
def trailingDays (today : ℤ) (n : ℕ) : List ℤ :=
  (List.range n).map (fun i : ℕ => today - (n : ℤ) + 1 + (i : ℤ))

/-- Modelled from the spec: the value a day's record set yields for a metric
(spec section 6: a day with zero records still gets a defined value,
typically 0 or null per metric).  Mentions of an empty day are 0; visibility
and sentiment of an empty day are null. -/
def trendValue (m : TrendMetric) (rs : List AnalysisRecord) : Option ℚ :=
  match m with
  | .mentions => some (((rs.map (fun r => r.mention_count)).sum : ℕ) : ℚ)
  | .sentiment => if rs.isEmpty then none else some (sentimentAvg rs)
  | .visibility => if rs.isEmpty then none else some (setVisibility rs)

/-- Modelled from the spec: the trend query of spec section 6.  The backend
trends endpoint (`backend/src/api/routes/analysis.py`) is not in the source
tree.  Given the brand's dated AnalysisRecords, a metric name and a day
count, it returns one {date, value} point per trailing calendar day, in date
order, with no gaps. -/
def trendSeries (records : List (ℤ × AnalysisRecord)) (m : TrendMetric)
    (today : ℤ) (n : ℕ) : List (ℤ × Option ℚ) :=
  (trailingDays today n).map
    (fun d => (d, trendValue m ((records.filter (fun e => e.1 = d)).map Prod.snd)))

/-! ## Theorems -/

/-- Claim C4: for every sentiment score, the derived label is "positive"
exactly when the score exceeds 0.2, "negative" exactly when it is below
-0.2, and "neutral" otherwise; and the frontend's per-aspect re-derivation
(`analysis/page.tsx` line 563) renders exactly the same label for every
score. -/
theorem claim_C4_sentiment_label_thresholds (s : ℚ) :
    (sentimentLabel s = .positive ↔ 1/5 < s) ∧
    (sentimentLabel s = .negative ↔ s < -(1/5)) ∧
    (sentimentLabel s = .neutral ↔ (s ≤ 1/5 ∧ -(1/5) ≤ s)) ∧
    aspectLabelString s = (sentimentLabel s).toString := by
  unfold sentimentLabel aspectLabelString
  split_ifs with h1 h2
  · exact ⟨iff_of_true rfl h1,
      iff_of_false (by decide) (by intro h; linarith),
      iff_of_false (by decide) (by intro h; linarith [h.1]),
      rfl⟩
  · exact ⟨iff_of_false (by decide) h1,
      iff_of_true rfl h2,
      iff_of_false (by decide) (by intro h; linarith [h.2]),
      rfl⟩
  · exact ⟨iff_of_false (by decide) h1,
      iff_of_false (by decide) h2,
      iff_of_true rfl ⟨not_lt.mp h1, not_lt.mp h2⟩,
      rfl⟩

/-- Claim C9: the frontend's two score-classification functions agree —
`getScoreColor` (utils.ts) and `getStrokeColor` (VisibilityGauge.tsx)
partition every score into the same band, green exactly when the score is at
least 70, yellow exactly when it is in [40, 70), and red exactly when it is
below 40. -/
theorem claim_C9_score_color_bands_agree (s : ℚ) :
    textBand (getScoreColor s) = strokeBand (getStrokeColor s) ∧
    (textBand (getScoreColor s) = some .green ↔ 70 ≤ s) ∧
    (textBand (getScoreColor s) = some .yellow ↔ 40 ≤ s ∧ s < 70) ∧
    (textBand (getScoreColor s) = some .red ↔ s < 40) := by
  unfold getScoreColor getStrokeColor
  split_ifs with h1 h2
  · exact ⟨by decide,
      iff_of_true (by decide) h1,
      iff_of_false (by decide) (by intro h; linarith [h.2]),
      iff_of_false (by decide) (by intro h; linarith)⟩
  · exact ⟨by decide,
      iff_of_false (by decide) h1,
      iff_of_true (by decide) ⟨h2, not_le.mp h1⟩,
      iff_of_false (by decide) (not_lt.mpr h2)⟩
  · exact ⟨by decide,
      iff_of_false (by decide) h1,
      iff_of_false (by decide) (by intro h; exact h2 h.1),
      iff_of_true (by decide) (not_le.mp h2)⟩

/-- The frontend's join over `&` agrees with the one-parameter-per-platform
query shape. -/
theorem joinSep_platforms_eq (ps : List String) :
    joinSep "&" (ps.map (fun p => "platforms=" ++ p)) =
      repeatedPlatformsQuery ps := by
  induction ps with
  | nil => rfl
  | cons p rest ih =>
    cases rest with
    | nil => rfl
    | cons q qs =>
      rw [repeatedPlatformsQuery, ← ih]
      rfl

/-- Claim C10: for every brand id, `analysisApi.triggerAnalysis` with a
non-empty platform list posts to
`/api/analysis/brand/{id}/run?platforms=p1&platforms=p2&...`, one repeated
`platforms` query parameter per platform in list order; with the platform
argument omitted the URL carries no query string. -/
theorem claim_C10_trigger_analysis_url (brandId p : String) (ps : List String) :
    triggerAnalysisUrl brandId (some (p :: ps)) =
      "/api/analysis/brand/" ++ brandId ++ "/run?" ++ repeatedPlatformsQuery (p :: ps) ∧
    triggerAnalysisUrl brandId none = "/api/analysis/brand/" ++ brandId ++ "/run" := by
  constructor
  · show "/api/analysis/brand/" ++ brandId ++ "/run" ++
      ("?" ++ joinSep "&" ((p :: ps).map (fun q => "platforms=" ++ q))) = _
    rw [joinSep_platforms_eq]
    simp only [← String.append_assoc]
    congr 1
    rw [String.append_assoc]
    simp
  · show "/api/analysis/brand/" ++ brandId ++ "/run" ++ "" = _
    rw [String.append_empty]

/-- Folding one outcome preserves the wins + losses + draws = total
invariant. -/
theorem accumStats_inv (s : ComparisonStats) (o : ComparisonOutcome)
    (h : s.wins + s.losses + s.draws = s.total) :
    (accumStats s o).wins + (accumStats s o).losses + (accumStats s o).draws =
      (accumStats s o).total := by
  cases o <;> simp [accumStats] <;> omega

/-- The fold over any outcome list preserves the invariant. -/
theorem foldl_accumStats_inv (os : List ComparisonOutcome) :
    ∀ s : ComparisonStats, s.wins + s.losses + s.draws = s.total →
      (os.foldl accumStats s).wins + (os.foldl accumStats s).losses +
        (os.foldl accumStats s).draws = (os.foldl accumStats s).total := by
  induction os with
  | nil => intro s h; exact h
  | cons o os ih => intro s h; exact ih (accumStats s o) (accumStats_inv s o h)

/-- Comparison statistics built from any outcome list balance. -/
theorem statsOf_inv (os : List ComparisonOutcome) :
    (statsOf os).wins + (statsOf os).losses + (statsOf os).draws = (statsOf os).total :=
  foldl_accumStats_inv os emptyStats rfl

/-- Claim C6: every AnalysisRecord the orchestrator produces satisfies
comparison_stats.wins + losses + draws = comparison_stats.total. -/
theorem claim_C6_comparison_stats_balance (cfg : BrandConfig) (r : RawResponse) :
    (orchestrate cfg r).comparison_stats.wins + (orchestrate cfg r).comparison_stats.losses +
      (orchestrate cfg r).comparison_stats.draws = (orchestrate cfg r).comparison_stats.total := by
  unfold orchestrate
  split
  · rfl
  · exact statsOf_inv (comparisonOutcomes cfg (splitLines r.response_text))

/-- A list of naturals summing to zero is pointwise zero under any map. -/
theorem map_sum_zero {α : Type} (f : α → ℕ) (ls : List α) (h : (ls.map f).sum = 0) :
    ∀ a ∈ ls, f a = 0 := by
  induction ls with
  | nil => intro a ha; cases ha
  | cons x xs ih =>
    intro a ha
    rw [List.map_cons, List.sum_cons] at h
    rcases List.mem_cons.mp ha with rfl | ha2
    · omega
    · exact ih (by omega) a ha2

/-- Claim C5: for every record the pipeline produces, zero brand mentions
force brand_mentioned = false and position = null. -/
theorem claim_C5_zero_mentions_invariant (cfg : BrandConfig) (r : RawResponse)
    (h : (orchestrate cfg r).mention_count = 0) :
    (orchestrate cfg r).brand_mentioned = false ∧ (orchestrate cfg r).position = none := by
  by_cases hc : r.status ≠ .completed ∨ r.response_text = ""
  · rw [orchestrate, if_pos hc]
    exact ⟨rfl, rfl⟩
  · rw [orchestrate, if_neg hc] at h ⊢
    have hsum : ((splitLines r.response_text).map (countMentions cfg.name)).sum = 0 := h
    constructor
    · show decide (0 < ((splitLines r.response_text).map (countMentions cfg.name)).sum) = false
      rw [hsum]
      rfl
    · show detectPosition cfg.name (splitLines r.response_text) = none
      have hfil : (splitLines r.response_text).filter
          (fun l => decide (0 < countMentions cfg.name l)) = [] := by
        rw [List.filter_eq_nil_iff]
        intro a ha
        simp [map_sum_zero (countMentions cfg.name) _ hsum a ha]
      unfold detectPosition
      rw [hfil]
      rfl

/-- The zero-mention invariant holds at a concrete completed response that
never names the brand. -/
theorem claim_C5_witness :
    (orchestrate ⟨"Acme", []⟩ ⟨"chatgpt", "no brand here", .completed⟩).brand_mentioned = false ∧
    (orchestrate ⟨"Acme", []⟩ ⟨"chatgpt", "no brand here", .completed⟩).position = none :=
  claim_C5_zero_mentions_invariant ⟨"Acme", []⟩ ⟨"chatgpt", "no brand here", .completed⟩ (by decide)

/-- Claim C8: a failed or timed-out response, or an empty response text,
makes the orchestrator skip analysis and record the failed placeholder —
brand_mentioned false and all counts zero — and the orchestrator, a total
function, emits exactly one AnalysisRecord per RawResponse. -/
theorem claim_C8_failed_responses_get_placeholder (cfg : BrandConfig) (r : RawResponse)
    (rs : List RawResponse)
    (h : r.status = .failed ∨ r.status = .timeout ∨ r.response_text = "") :
    orchestrate cfg r = failedPlaceholder r.platform ∧
    (orchestrate cfg r).brand_mentioned = false ∧
    (orchestrate cfg r).mention_count = 0 ∧
    (orchestrate cfg r).position = none ∧
    (orchestrate cfg r).comparison_stats = emptyStats ∧
    (orchestrateAll cfg rs).length = rs.length := by
  have hc : r.status ≠ .completed ∨ r.response_text = "" := by
    rcases h with h | h | h
    · exact Or.inl (by rw [h]; intro hx; cases hx)
    · exact Or.inl (by rw [h]; intro hx; cases hx)
    · exact Or.inr h
  have he : orchestrate cfg r = failedPlaceholder r.platform := by
    rw [orchestrate, if_pos hc]
  exact ⟨he, by rw [he]; rfl, by rw [he]; rfl, by rw [he]; rfl, by rw [he]; rfl,
    by simp [orchestrateAll]⟩

/-- The failure policy at a concrete timed-out response with non-empty
text: the placeholder is recorded and analysis is skipped. -/
theorem claim_C8_witness :
    orchestrate ⟨"Acme", ["HubSpot"]⟩ ⟨"chatgpt", "partial text", .timeout⟩ =
      failedPlaceholder "chatgpt" ∧
    (orchestrate ⟨"Acme", ["HubSpot"]⟩ ⟨"chatgpt", "partial text", .timeout⟩).mention_count = 0 := by
  have h := claim_C8_failed_responses_get_placeholder ⟨"Acme", ["HubSpot"]⟩
    ⟨"chatgpt", "partial text", .timeout⟩ [] (Or.inr (Or.inl rfl))
  exact ⟨h.1, h.2.2.1⟩

/-- Looking up the key just upserted returns the upserted row. -/
theorem lookupRow_upsertRow (store : MetricsStore) (k : String × ℤ) (v : DailyMetrics) :
    lookupRow (upsertRow store k v) k = some v := by
  induction store with
  | nil => simp [upsertRow, lookupRow]
  | cons e rest ih =>
    obtain ⟨k0, v0⟩ := e
    by_cases hk : k0 = k
    · simp [upsertRow, lookupRow, hk]
    · simp [upsertRow, lookupRow, hk, ih]

/-- Upserting the same row twice equals upserting it once. -/
theorem upsertRow_idem (store : MetricsStore) (k : String × ℤ) (v : DailyMetrics) :
    upsertRow (upsertRow store k v) k v = upsertRow store k v := by
  induction store with
  | nil => simp [upsertRow]
  | cons e rest ih =>
    obtain ⟨k0, v0⟩ := e
    by_cases hk : k0 = k
    · simp [upsertRow, hk]
    · simp [upsertRow, hk, ih]

/-- Claim C7: the Metrics Aggregator is a pure, idempotent function of its
input AnalysisRecord set — running it twice over the identical set leaves
the store exactly as one run does, the stored row is exactly the recomputed
DailyMetrics of the set, and the stored result does not depend on any prior
store state. -/
theorem claim_C7_aggregator_idempotent (s1 s2 : MetricsStore) (brand : String) (day : ℤ)
    (rs : List AnalysisRecord) :
    runAggregator (runAggregator s1 brand day rs) brand day rs = runAggregator s1 brand day rs ∧
    lookupRow (runAggregator s1 brand day rs) (brand, day) = some (dailyMetricsOf rs) ∧
    lookupRow (runAggregator s1 brand day rs) (brand, day) =
      lookupRow (runAggregator s2 brand day rs) (brand, day) := by
  unfold runAggregator
  refine ⟨upsertRow_idem s1 (brand, day) (dailyMetricsOf rs),
    lookupRow_upsertRow s1 (brand, day) (dailyMetricsOf rs), ?_⟩
  rw [lookupRow_upsertRow, lookupRow_upsertRow]

/-- Claim C2: the trend query returns one {date, value} point per requested
trailing calendar day — exactly n points, whose dates are exactly the n
trailing days ending today, in strictly ascending order with no day repeated
or omitted — and a day with zero AnalysisRecords still gets a defined value,
0 or null depending on the metric. -/
theorem claim_C2_trend_series_contract (records : List (ℤ × AnalysisRecord))
    (m : TrendMetric) (today : ℤ) (n : ℕ) :
    (trendSeries records m today n).length = n ∧
    (trendSeries records m today n).map Prod.fst = trailingDays today n ∧
    List.Pairwise (· < ·) (trailingDays today n) ∧
    (∀ d : ℤ, d ∈ trailingDays today n ↔ today - (n : ℤ) < d ∧ d ≤ today) ∧
    (trendValue m [] = some 0 ∨ trendValue m [] = none) := by
  refine ⟨?_, ?_, ?_, ?_, ?_⟩
  · rw [trendSeries, List.length_map, trailingDays, List.length_map, List.length_range]
  · rw [trendSeries, List.map_map]
    exact List.map_id _
  · exact (List.pairwise_lt_range n).map _ (fun a b hab => by omega)
  · intro d
    constructor
    · intro hd
      rw [trailingDays] at hd
      obtain ⟨i, hi, hfd⟩ := List.mem_map.mp hd
      rw [List.mem_range] at hi
      omega
    · intro hd
      rw [trailingDays]
      refine List.mem_map.mpr ⟨(d - (today - (n : ℤ) + 1)).toNat, ?_, ?_⟩
      · rw [List.mem_range]
        omega
      · omega
  · cases m with
    | mentions => left; simp [trendValue]
    | sentiment => right; rfl
    | visibility => right; rfl

/-- The mention rate lies in [0, 1] when mentions do not exceed queries. -/
theorem mentionRate_mem (m t : ℕ) (h : m ≤ t) :
    0 ≤ mentionRate m t ∧ mentionRate m t ≤ 1 := by
  unfold mentionRate
  split
  · norm_num
  · rename_i ht
    have ht' : 0 < (t : ℚ) := by
      have : 0 < t := Nat.pos_of_ne_zero ht
      exact_mod_cast this
    constructor
    · positivity
    · rw [div_le_one ht']
      exact_mod_cast h

/-- The position score lies in [0, 1] for 1-based ranks, and is 0 when the
position is absent. -/
theorem positionScore_mem (pos : Option ℕ) (hp : ∀ r, pos = some r → 1 ≤ r) :
    0 ≤ positionScore pos ∧ positionScore pos ≤ 1 := by
  cases pos with
  | none => simp [positionScore]
  | some r =>
    have hr : (1 : ℚ) ≤ (r : ℚ) := by exact_mod_cast hp r rfl
    unfold positionScore
    constructor
    · positivity
    · rw [div_le_one (by linarith)]
      exact hr

/-- The sentiment component maps [-1, 1] into [0, 1]. -/
theorem sentimentComponent_mem (s : ℚ) (h1 : -1 ≤ s) (h2 : s ≤ 1) :
    0 ≤ sentimentComponent s ∧ sentimentComponent s ≤ 1 := by
  unfold sentimentComponent
  constructor <;> linarith

/-- Claim C1: the visibility score is the weighted sum
mention_rate * W1 + position_score * W2 + sentiment_component * W3, the
position score zeroes out when the brand has no ranked position, the fixed
weights sum to 100, and the resulting score always lies in [0, 100]. -/
theorem claim_C1_visibility_score_bounds (mentions totalQueries : ℕ) (pos : Option ℕ)
    (sent : ℚ) (hm : mentions ≤ totalQueries) (hs1 : -1 ≤ sent) (hs2 : sent ≤ 1)
    (hp : ∀ r, pos = some r → 1 ≤ r) :
    W1 + W2 + W3 = 100 ∧
    visibilityScore mentions totalQueries pos sent =
      mentionRate mentions totalQueries * W1 + positionScore pos * W2 +
        sentimentComponent sent * W3 ∧
    positionScore none = 0 ∧
    0 ≤ visibilityScore mentions totalQueries pos sent ∧
    visibilityScore mentions totalQueries pos sent ≤ 100 := by
  obtain ⟨ha0, ha1⟩ := mentionRate_mem mentions totalQueries hm
  obtain ⟨hb0, hb1⟩ := positionScore_mem pos hp
  obtain ⟨hc0, hc1⟩ := sentimentComponent_mem sent hs1 hs2
  have w1 : W1 = 40 := rfl
  have w2 : W2 = 30 := rfl
  have w3 : W3 = 30 := rfl
  have t1 : mentionRate mentions totalQueries * W1 ≤ 40 := by
    rw [w1]
    nlinarith
  have t2 : positionScore pos * W2 ≤ 30 := by
    rw [w2]
    nlinarith
  have t3 : sentimentComponent sent * W3 ≤ 30 := by
    rw [w3]
    nlinarith
  have l1 : 0 ≤ mentionRate mentions totalQueries * W1 := by
    rw [w1]; positivity
  have l2 : 0 ≤ positionScore pos * W2 := by
    rw [w2]; positivity
  have l3 : 0 ≤ sentimentComponent sent * W3 := by
    rw [w3]; positivity
  refine ⟨by norm_num [W1, W2, W3], rfl, rfl, ?_, ?_⟩
  · unfold visibilityScore
    linarith
  · unfold visibilityScore
    linarith

/-- The visibility bounds at a concrete window: 1 mention across 2 queries,
rank 2, sentiment 1/2. -/
theorem claim_C1_witness :
    0 ≤ visibilityScore 1 2 (some 2) (1/2) ∧ visibilityScore 1 2 (some 2) (1/2) ≤ 100 := by
  have h := claim_C1_visibility_score_bounds 1 2 (some 2) (1/2) (by norm_num) (by norm_num)
    (by norm_num) (by intro r hr; injection hr with h2; omega)
  exact ⟨h.2.2.2.1, h.2.2.2.2⟩

/-- Claim C3: share of voice is brand mentions over brand plus competitor
mentions, times 100, and is 0 — not an error — when the denominator is 0;
aggregating the single record analyzed from a response naming no brand but
two competitors yields brand_mentioned = false and share_of_voice = 0. -/
theorem claim_C3_share_of_voice (b c : ℕ) :
    (b + c = 0 → shareOfVoice b c = 0) ∧
    (b + c ≠ 0 → shareOfVoice b c = (b : ℚ) / ((b : ℚ) + (c : ℚ)) * 100) ∧
    (analyzeResponse ⟨"Acme", ["HubSpot", "Zoho"]⟩ "chatgpt"
      "HubSpot and Zoho are options").brand_mentioned = false ∧
    (dailyMetricsOf [analyzeResponse ⟨"Acme", ["HubSpot", "Zoho"]⟩ "chatgpt"
      "HubSpot and Zoho are options"]).share_of_voice = 0 := by
  refine ⟨fun h => by simp [shareOfVoice, h], fun h => by simp [shareOfVoice, h], by decide, ?_⟩
  have h1 : (analyzeResponse ⟨"Acme", ["HubSpot", "Zoho"]⟩ "chatgpt"
      "HubSpot and Zoho are options").mention_count = 0 := by decide
  have h2 : recordCompTotal (analyzeResponse ⟨"Acme", ["HubSpot", "Zoho"]⟩ "chatgpt"
      "HubSpot and Zoho are options") = 2 := by decide
  simp [dailyMetricsOf, h1, h2, shareOfVoice]

/-- Share of voice at concrete totals: zero denominator gives 0, and a
non-zero denominator gives the ratio. -/
theorem claim_C3_witness :
    shareOfVoice 0 0 = 0 ∧ shareOfVoice 1 1 = (1 : ℚ) / ((1 : ℚ) + (1 : ℚ)) * 100 :=
  ⟨(claim_C3_share_of_voice 0 0).1 rfl, (claim_C3_share_of_voice 1 1).2.1 (by decide)⟩

end AnswerEngine
